import Mathlib

set_option maxRecDepth 1000000

/-!
Verification of the membership-activation workflow of the csinmamit web
application: plan catalog, order creation, Razorpay signature verification,
webhook-driven membership mutation, client-side validation/sanitization and
the client-side payment rate limiter.

All definitions are shallow embeddings of the JavaScript source.  Machine
words are `Nat` with explicit reduction modulo `2 ^ 32` where overflow
matters; strings are Lean `String`; fallible operations return explicit
result types.
-/

namespace CSI

/-! ## SHA-256 and HMAC-SHA256 (model of node `crypto.createHmac('sha256', …)`)

Executable FIPS 180-4 SHA-256 and RFC 2104 HMAC over byte lists
(`List Nat`, each entry `< 256`), with lowercase hex output, mirroring
`crypto.createHmac('sha256', secret).update(msg).digest('hex')`. -/

/-- 32-bit modulus. -/
def M32 : Nat := 4294967296

/-- Right rotation of a 32-bit word (input assumed `< 2 ^ 32`). -/
def rotr32 (n x : Nat) : Nat := x / 2 ^ n + x % 2 ^ n * 2 ^ (32 - n)

/-- Bitwise complement of a 32-bit word. -/
def not32 (x : Nat) : Nat := Nat.xor x (M32 - 1)

/-- `Ch(x,y,z)` of FIPS 180-4. -/
def ch32 (x y z : Nat) : Nat := Nat.xor (Nat.land x y) (Nat.land (not32 x) z)

/-- `Maj(x,y,z)` of FIPS 180-4. -/
def maj32 (x y z : Nat) : Nat := Nat.xor (Nat.xor (Nat.land x y) (Nat.land x z)) (Nat.land y z)

/-- `Σ₀`. -/
def bsig0 (x : Nat) : Nat := Nat.xor (Nat.xor (rotr32 2 x) (rotr32 13 x)) (rotr32 22 x)

/-- `Σ₁`. -/
def bsig1 (x : Nat) : Nat := Nat.xor (Nat.xor (rotr32 6 x) (rotr32 11 x)) (rotr32 25 x)

/-- `σ₀`. -/
def ssig0 (x : Nat) : Nat := Nat.xor (Nat.xor (rotr32 7 x) (rotr32 18 x)) (x / 2 ^ 3)

/-- `σ₁`. -/
def ssig1 (x : Nat) : Nat := Nat.xor (Nat.xor (rotr32 17 x) (rotr32 19 x)) (x / 2 ^ 10)

/-- SHA-256 round constants K₀…K₆₃ (FIPS 180-4 §4.2.2), in decimal. -/
def sha256K : List Nat :=
  [1116352408, 1899447441, 3049323471, 3921009573, 961987163, 1508970993,
   2453635748, 2870763221, 3624381080, 310598401, 607225278, 1426881987,
   1925078388, 2162078206, 2614888103, 3248222580, 3835390401, 4022224774,
   264347078, 604807628, 770255983, 1249150122, 1555081692, 1996064986,
   2554220882, 2821834349, 2952996808, 3210313671, 3336571891, 3584528711,
   113926993, 338241895, 666307205, 773529912, 1294757372, 1396182291,
   1695183700, 1986661051, 2177026350, 2456956037, 2730485921, 2820302411,
   3259730800, 3345764771, 3516065817, 3600352804, 4094571909, 275423344,
   430227734, 506948616, 659060556, 883997877, 958139571, 1322822218,
   1537002063, 1747873779, 1955562222, 2024104815, 2227730452, 2361852424,
   2428436474, 2756734187, 3204031479, 3329325298]

/-- SHA-256 initial hash values H₀…H₇ (FIPS 180-4 §5.3.3), in decimal. -/
def sha256H0 : List Nat :=
  [1779033703, 3144134277, 1013904242, 2773480762,
   1359893119, 2600822924, 528734635, 1541459225]

/-- List lookup with default `0`. -/
def nth (l : List Nat) (i : Nat) : Nat := l.getD i 0

/-- Big-endian packing of consecutive 4-byte groups into 32-bit words. -/
def bytesToWords : List Nat → List Nat
  | b0 :: b1 :: b2 :: b3 :: rest => (((b0 * 256 + b1) * 256 + b2) * 256 + b3) :: bytesToWords rest
  | _ => []

/-- Extend the 16 block words to the 64-entry message schedule. -/
def sha256Schedule (block : List Nat) : List Nat :=
  (List.range 48).foldl
    (fun w _ =>
      let n := w.length
      w ++ [(ssig1 (nth w (n - 2)) + nth w (n - 7) + ssig0 (nth w (n - 15)) + nth w (n - 16)) % M32])
    block

/-- One round of the SHA-256 compression loop on the 8-word working state. -/
def sha256Round (w : List Nat) (s : List Nat) (i : Nat) : List Nat :=
  match s with
  | [a, b, c, d, e, f, g, h] =>
    let t1 := (h + bsig1 e + ch32 e f g + nth sha256K i + nth w i) % M32
    let t2 := (bsig0 a + maj32 a b c) % M32
    [(t1 + t2) % M32, a, b, c, (d + t1) % M32, e, f, g]
  | s => s

/-- SHA-256 compression of one 16-word block into the running 8-word state. -/
def sha256Compress (h : List Nat) (block : List Nat) : List Nat :=
  let w := sha256Schedule block
  let s := (List.range 64).foldl (sha256Round w) h
  (h.zip s).map (fun p => (p.1 + p.2) % M32)

/-- FIPS 180-4 §5.1.1 padding: `0x80`, zeros, then 64-bit big-endian bit length. -/
def sha256Pad (msg : List Nat) : List Nat :=
  let len := msg.length
  let padZeros := (64 + 55 - len % 64) % 64
  let bitLen := 8 * len
  msg ++ [0x80] ++ List.replicate padZeros 0 ++
    [bitLen / 2 ^ 56 % 256, bitLen / 2 ^ 48 % 256, bitLen / 2 ^ 40 % 256, bitLen / 2 ^ 32 % 256,
     bitLen / 2 ^ 24 % 256, bitLen / 2 ^ 16 % 256, bitLen / 2 ^ 8 % 256, bitLen % 256]

/-- Split a byte list into 64-byte chunks (fuelled to keep recursion structural). -/
def chunk64 : Nat → List Nat → List (List Nat)
  | 0, _ => []
  | _, [] => []
  | fuel + 1, l => l.take 64 :: chunk64 fuel (l.drop 64)

/-- Big-endian byte serialization of a 32-bit word. -/
def wordBytes (x : Nat) : List Nat := [x / 2 ^ 24 % 256, x / 2 ^ 16 % 256, x / 2 ^ 8 % 256, x % 256]

/-- SHA-256 digest (32 bytes) of a byte list. -/
def sha256 (msg : List Nat) : List Nat :=
  let padded := sha256Pad msg
  let final := (chunk64 (padded.length) padded).foldl
    (fun h b => sha256Compress h (bytesToWords b)) sha256H0
  (final.map wordBytes).flatten

/-- HMAC-SHA256 (RFC 2104 / FIPS 198-1) of a message under a key, both byte lists. -/
def hmacSha256 (key msg : List Nat) : List Nat :=
  let k0 := if 64 < key.length then sha256 key else key
  let kpad := k0 ++ List.replicate (64 - k0.length) 0
  let inner := sha256 (kpad.map (Nat.xor 0x36) ++ msg)
  sha256 (kpad.map (Nat.xor 0x5c) ++ inner)

/-- Lowercase hex digit. -/
def hexDigit (n : Nat) : Char := if n < 10 then Char.ofNat (48 + n) else Char.ofNat (87 + n)

/-- Lowercase hex rendering of a byte list. -/
def bytesToHex (l : List Nat) : String :=
  String.mk ((l.map (fun b => [hexDigit (b / 16 % 16), hexDigit (b % 16)])).flatten)

/-- UTF-8 encoding of one character. -/
def utf8Char (c : Char) : List Nat :=
  let n := c.toNat
  if n < 0x80 then [n]
  else if n < 0x800 then [0xc0 + n / 64, 0x80 + n % 64]
  else if n < 0x10000 then [0xe0 + n / 4096, 0x80 + n / 64 % 64, 0x80 + n % 64]
  else [0xf0 + n / 262144, 0x80 + n / 4096 % 64, 0x80 + n / 64 % 64, 0x80 + n % 64]

/-- UTF-8 encoding of a string as a byte list. -/
def utf8 (s : String) : List Nat := (s.data.map utf8Char).flatten

/-- `crypto.createHmac('sha256', secret).update(msg).digest('hex')`. -/
def hmacSha256Hex (secret msg : String) : String :=
  bytesToHex (hmacSha256 (utf8 secret) (utf8 msg))

/-! ## Server data model

Both backend variants (`backend/index.js` and the revised copy of the same
server file) share the plan catalog, the request shapes and the Firestore
document model below.  JavaScript string truthiness (`undefined`/`null`/`""`
falsy) is modelled on `Option String`. -/

/-- JS truthiness of an optional string field: `undefined`, `null` and `""` are falsy. -/
def truthyStr : Option String → Bool
  | none => false
  | some s => !(s == "")

/-- One entry of `MEMBERSHIP_PLANS`. -/
structure Plan where
  price : Nat
  name : String
  duration : String
deriving DecidableEq, Repr

/-- The server-side plan catalog `MEMBERSHIP_PLANS` (prices in whole rupees). -/
def MEMBERSHIP_PLANS : String → Option Plan := fun planId =>
  if planId = "one-year" then some ⟨358, "1-Year Executive Membership", "1 Year"⟩
  else if planId = "two-year" then some ⟨664, "2-Year Executive Membership", "2 Years"⟩
  else if planId = "three-year" then some ⟨919, "3-Year Executive Membership", "3 Years"⟩
  else none

/-- Parsed JSON body of a `POST /create-order` request.  The client
(`paymentService.createOrder`) also sends an `amount` field; the server
destructures only `planId` and `userId` from `req.body`. -/
structure CreateOrderReq where
  planId : Option String
  userId : Option String
  amount : Option Nat
deriving DecidableEq, Repr

/-- The Razorpay order-creation options built by the server (`options` passed
to `razorpay.orders.create`). -/
structure OrderOptions where
  amount : Nat
  currency : String
  notesUserId : Option String
  notesPlanId : Option String
  notesPlanName : String
deriving DecidableEq, Repr

/-- Outcome of `POST /create-order`. -/
inductive CreateOrderRes
  /-- 400 `{error: 'Invalid plan selected'}`. -/
  | invalidPlan
  /-- 400 `{error: 'User already has an active subscription'}` (guard variant only). -/
  | alreadyActive
  /-- 500 `{error: 'Failed to create order'}` (a thrown error reached the catch). -/
  | serverError
  /-- A gateway order with these options is requested and echoed to the client. -/
  | order (o : OrderOptions)
deriving DecidableEq, Repr

/-- HTTP status code of a `POST /create-order` outcome. -/
def CreateOrderRes.code : CreateOrderRes → Nat
  | .invalidPlan => 400
  | .alreadyActive => 400
  | .serverError => 500
  | .order _ => 200

/-- A civil-calendar instant as JavaScript `Date` exposes it: year,
zero-based month, one-based day of month, and milliseconds within the day. -/
structure JsDate where
  year : Int
  month : Nat
  day : Nat
  ms : Nat
deriving DecidableEq, Repr

/-- Gregorian leap-year test. -/
def isLeap (y : Int) : Bool := (y % 4 == 0 && y % 100 != 0) || y % 400 == 0

/-- Days in a zero-based month of a given year. -/
def daysInMonth (y : Int) (m : Nat) : Nat :=
  if m = 1 then (if isLeap y then 29 else 28)
  else if m = 3 ∨ m = 5 ∨ m = 8 ∨ m = 10 then 30
  else 31

/-- JS `d.setDate(d.getDate() - 1)` on a valid date: step back one calendar day. -/
def JsDate.subOneDay (d : JsDate) : JsDate :=
  if d.day = 1 then
    if d.month = 0 then ⟨d.year - 1, 11, 31, d.ms⟩
    else ⟨d.year, d.month - 1, daysInMonth d.year (d.month - 1), d.ms⟩
  else ⟨d.year, d.month, d.day - 1, d.ms⟩

/-- JS `d.setFullYear(d.getFullYear() + n)`: same month/day in year `+ n`,
with the Feb 29 → Mar 1 overflow JS applies when the target year is not leap. -/
def JsDate.addYears (n : Nat) (d : JsDate) : JsDate :=
  let y := d.year + n
  if d.day ≤ daysInMonth y d.month then ⟨y, d.month, d.day, d.ms⟩
  else ⟨y, d.month + 1, d.day - daysInMonth y d.month, d.ms⟩

/-- Strict order on instants (`a < b`), as JS `Date` comparison via epoch
milliseconds; on normalized civil dates this is the lexicographic order. -/
def JsDate.lt (a b : JsDate) : Bool :=
  a.year < b.year ∨
    (a.year = b.year ∧ (a.month < b.month ∨
      (a.month = b.month ∧ (a.day < b.day ∨ (a.day = b.day ∧ a.ms < b.ms)))))

/-- A user's `membership` map.  Fields are optional because the two backend
variants write different field names (`planId`/`expiryDate` in one,
`type`/`expiresAt` in the other) and `set(..., {merge: true})` leaves the
rest untouched.  `startDate` is written with `serverTimestamp()`, modelled
as a unit marker. -/
structure Membership where
  status : Option String := none
  type : Option String := none
  planId : Option String := none
  startDate : Option Unit := none
  expiresAt : Option JsDate := none
  expiryDate : Option Nat := none
deriving DecidableEq, Repr

/-- A document of the `users` collection (the fields this workflow touches). -/
structure UserDoc where
  membership : Membership := {}
  role : Option String := none
  updatedAt : Option Unit := none
deriving DecidableEq, Repr

/-- A row appended to the `payments` ledger collection.  `amount` is the JS
number `payment.amount / 100`, modelled exactly as a rational. -/
structure PaymentRow where
  userId : String
  paymentId : String
  orderId : String
  amount : Rat
  currency : String
  status : String
  planId : String
  createdAt : Option Unit := some ()
deriving DecidableEq, Repr

/-- The Firestore state the workflow reads and writes: the `users` collection
as an association list and the append-only `payments` collection. -/
structure DB where
  users : List (String × UserDoc)
  payments : List PaymentRow
deriving DecidableEq, Repr

/-- `db.collection('users').doc(uid).get()`: first binding for the key, if any. -/
def DB.getUser (db : DB) (uid : String) : Option UserDoc :=
  (db.users.find? (fun p => p.1 = uid)).map Prod.snd

/-- `userRef.set(…, {merge: true})`: update the document in place, or create
it (from an empty document) when absent. -/
def DB.setMergeUser (db : DB) (uid : String) (f : UserDoc → UserDoc) : DB :=
  if db.users.any (fun p => p.1 = uid) then
    { db with users := db.users.map (fun p => if p.1 = uid then (p.1, f p.2) else p) }
  else { db with users := db.users ++ [(uid, f {})] }

/-! ## `POST /create-order` — both server variants

`ServerA` is `backend/index.js`; `ServerB` is the revised server file that
adds the duplicate-purchase guard and writes `type`/`expiresAt`. -/

namespace ServerA

/-- `backend/index.js` `POST /create-order`: validate the plan id against the
catalog and mint a gateway order for `plan.price * 100` paise.  The request's
`amount` field is never read. -/
def createOrder (req : CreateOrderReq) : CreateOrderRes :=
  match req.planId with
  | none => .invalidPlan
  | some pid =>
    if pid = "" then .invalidPlan
    else
      match MEMBERSHIP_PLANS pid with
      | none => .invalidPlan
      | some plan =>
        .order { amount := plan.price * 100, currency := "INR",
                 notesUserId := req.userId, notesPlanId := some pid,
                 notesPlanName := plan.name }

end ServerA

namespace ServerB

/-- Revised `POST /create-order`: after the plan check it loads the user and
rejects when `membership.status === 'active'` and `membership.expiresAt` is a
future instant; otherwise it mints the same catalog-priced order.  A missing
`userId` makes `doc(undefined)` throw, landing in the catch (500). -/
def createOrder (db : DB) (now : JsDate) (req : CreateOrderReq) : CreateOrderRes :=
  match req.planId with
  | none => .invalidPlan
  | some pid =>
    if pid = "" then .invalidPlan
    else
      match MEMBERSHIP_PLANS pid with
      | none => .invalidPlan
      | some plan =>
        match req.userId with
        | none => .serverError
        | some uid =>
          let guard :=
            match db.getUser uid with
            | none => false
            | some u =>
              if u.membership.status = some "active" then
                match u.membership.expiresAt with
                | some expiry => JsDate.lt now expiry
                | none => false
              else false
          if guard then .alreadyActive
          else
            .order { amount := plan.price * 100, currency := "INR",
                     notesUserId := some uid, notesPlanId := some pid,
                     notesPlanName := plan.name }

end ServerB

/-! ## `POST /verify-payment` (identical in both server variants) -/

/-- Outcome of `POST /verify-payment`. -/
inductive VerifyRes
  /-- 200 `{verified: true}`. -/
  | accepted
  /-- 400 `{verified: false, error: 'Invalid signature'}`. -/
  | rejected
deriving DecidableEq, Repr

/-- HTTP status code of a verification outcome. -/
def VerifyRes.code : VerifyRes → Nat
  | .accepted => 200
  | .rejected => 400

/-- The `verified` flag in the JSON response. -/
def VerifyRes.verified : VerifyRes → Bool
  | .accepted => true
  | .rejected => false

/-- `POST /verify-payment`: recompute
`HMAC-SHA256(secret, order_id + "|" + payment_id)` in hex and accept exactly
when it equals the supplied signature. -/
def verifyPayment (secret orderId paymentId signature : String) : VerifyRes :=
  let expectedSign := hmacSha256Hex secret (orderId ++ "|" ++ paymentId)
  if signature = expectedSign then .accepted else .rejected

/-! ## `POST /webhook`

The handler recomputes `HMAC-SHA256(WEBHOOK_SECRET, JSON.stringify(req.body))`
and compares it with the `x-razorpay-signature` header.  The parsed body and
its serialization are modelled below. -/

/-- `payload.payment.entity` of a webhook event body (the fields this server
reads, plus the notes the order creation planted). -/
structure PaymentEntity where
  id : String
  order_id : String
  amount : Nat
  currency : String
  notesUserId : Option String
  notesPlanId : Option String
  notesPlanName : Option String
deriving DecidableEq, Repr

/-- Parsed webhook request body `{event, payload: {payment: {entity}}}`. -/
structure WebhookBody where
  event : String
  payment : PaymentEntity
deriving DecidableEq, Repr

/-- JSON string escaping as `JSON.stringify` performs it on the characters
our payloads can carry. -/
def jsonEscape (s : String) : String :=
  String.mk ((s.data.map (fun c =>
    if c = Char.ofNat 34 then [Char.ofNat 92, Char.ofNat 34]
    else if c = Char.ofNat 92 then [Char.ofNat 92, Char.ofNat 92]
    else if c = Char.ofNat 10 then [Char.ofNat 92, 'n']
    else if c = Char.ofNat 13 then [Char.ofNat 92, 'r']
    else if c = Char.ofNat 9 then [Char.ofNat 92, 't']
    else if c = Char.ofNat 8 then [Char.ofNat 92, 'b']
    else if c = Char.ofNat 12 then [Char.ofNat 92, 'f']
    else if c.toNat < 32 then
      [Char.ofNat 92, 'u', '0', '0', hexDigit (c.toNat / 16), hexDigit (c.toNat % 16)]
    else [c])).flatten)

/-- A JSON string literal. -/
def jstr (s : String) : String := "\"" ++ jsonEscape s ++ "\""

/-- A `key: value` JSON member. -/
def jmem (k v : String) : String := jstr k ++ ":" ++ v

/-- A JSON object from already-rendered members (absent optional members are
dropped, as `JSON.stringify` drops `undefined` properties). -/
def jobj (members : List (Option String)) : String :=
  "\x7b" ++ String.intercalate "," (members.filterMap id) ++ "\x7d"

/-- `JSON.stringify(req.body)` for a webhook body in the gateway's field
order: the notes members mirror the `{userId, planId, planName}` notes the
order creation attached. -/
def stringifyBody (b : WebhookBody) : String :=
  jobj [some (jmem "event" (jstr b.event)),
    some (jmem "payload" (jobj [some (jmem "payment" (jobj [some (jmem "entity" (jobj
      [some (jmem "id" (jstr b.payment.id)),
       some (jmem "order_id" (jstr b.payment.order_id)),
       some (jmem "amount" (toString b.payment.amount)),
       some (jmem "currency" (jstr b.payment.currency)),
       some (jmem "notes" (jobj
         [(b.payment.notesUserId).map (fun u => jmem "userId" (jstr u)),
          (b.payment.notesPlanId).map (fun p => jmem "planId" (jstr p)),
          (b.payment.notesPlanName).map (fun n => jmem "planName" (jstr n))]))]))]))]))]

/-- Outcome of `POST /webhook`. -/
inductive WebhookRes
  /-- 400 `{error: 'Missing signature'}`. -/
  | missingSignature
  /-- 400 `{error: 'Invalid signature'}`. -/
  | invalidSignature
  /-- 500 `{error: 'Database update failed'}`. -/
  | dbError
  /-- 200 `{status: 'ok'}`. -/
  | okStatus
deriving DecidableEq, Repr

/-- HTTP status code of a webhook outcome. -/
def WebhookRes.code : WebhookRes → Nat
  | .missingSignature => 400
  | .invalidSignature => 400
  | .dbError => 500
  | .okStatus => 200

/-- `planId === 'one-year' ? 1 : planId === 'two-year' ? 2 : 3`. -/
def durationYears (planId : String) : Nat :=
  if planId = "one-year" then 1 else if planId = "two-year" then 2 else 3

namespace ServerB

/-- Revised `POST /webhook`: verify the body digest against the header; on a
verified `payment.captured` event whose notes carry truthy `userId` and
`planId`, merge `{status: 'active', type: planId, startDate, expiresAt}` into
the user and append one ledger row.  `expiresAt` is yesterday plus the plan's
whole-year duration.  `membershipWriteOk`/`paymentWriteOk` say whether the
corresponding awaited Firestore write throws (→ catch → 500). -/
def webhook (secret : String) (now : JsDate) (membershipWriteOk paymentWriteOk : Bool)
    (signature : Option String) (body : WebhookBody) (db : DB) : WebhookRes × DB :=
  match signature with
  | none => (.missingSignature, db)
  | some sig =>
    let digest := hmacSha256Hex secret (stringifyBody body)
    if digest = sig then
      if body.event = "payment.captured" then
        let userId := body.payment.notesUserId
        let planId := body.payment.notesPlanId
        if truthyStr userId && truthyStr planId then
          let uid := userId.getD ""
          let pid := planId.getD ""
          if !membershipWriteOk then (.dbError, db)
          else
            let expiresAt := JsDate.addYears (durationYears pid) now.subOneDay
            let db1 := db.setMergeUser uid (fun u =>
              { u with
                membership := { u.membership with
                  status := some "active", type := some pid,
                  startDate := some (), expiresAt := some expiresAt },
                role := some "EXECUTIVE MEMBER", updatedAt := some () })
            if !paymentWriteOk then (.dbError, db1)
            else
              (.okStatus, { db1 with payments := db1.payments ++
                [{ userId := uid, paymentId := body.payment.id,
                   orderId := body.payment.order_id,
                   amount := (body.payment.amount : Rat) / 100,
                   currency := body.payment.currency, status := "success",
                   planId := pid }] })
        else (.okStatus, db)
      else (.okStatus, db)
    else (.invalidSignature, db)

end ServerB

namespace ServerA

/-- `backend/index.js` `POST /webhook`: same control flow as the revised
variant, but the membership write uses the field names `planId`/`expiryDate`
and computes the expiry as `Date.now() + {365,730,1095} days` in epoch
milliseconds (`nowMs`). -/
def webhook (secret : String) (nowMs : Nat) (membershipWriteOk paymentWriteOk : Bool)
    (signature : Option String) (body : WebhookBody) (db : DB) : WebhookRes × DB :=
  match signature with
  | none => (.missingSignature, db)
  | some sig =>
    let digest := hmacSha256Hex secret (stringifyBody body)
    if digest = sig then
      if body.event = "payment.captured" then
        let userId := body.payment.notesUserId
        let planId := body.payment.notesPlanId
        if truthyStr userId && truthyStr planId then
          let uid := userId.getD ""
          let pid := planId.getD ""
          if !membershipWriteOk then (.dbError, db)
          else
            let days : Nat := if pid = "one-year" then 365 else if pid = "two-year" then 730 else 1095
            let db1 := db.setMergeUser uid (fun u =>
              { u with
                membership := { u.membership with
                  status := some "active", planId := some pid,
                  startDate := some (),
                  expiryDate := some (nowMs + days * 24 * 60 * 60 * 1000) },
                role := some "EXECUTIVE MEMBER", updatedAt := some () })
            if !paymentWriteOk then (.dbError, db1)
            else
              (.okStatus, { db1 with payments := db1.payments ++
                [{ userId := uid, paymentId := body.payment.id,
                   orderId := body.payment.order_id,
                   amount := (body.payment.amount : Rat) / 100,
                   currency := body.payment.currency, status := "success",
                   planId := pid }] })
        else (.okStatus, db)
      else (.okStatus, db)
    else (.invalidSignature, db)

end ServerA

/-! ## Client-side validation and sanitization

`SecurityUtils` models `src/utils/securityUtils.js`; `Validators` models the
standalone validator module (`validateEmail`/`validatePhone`/`sanitizeInput`
with five replacement passes). -/

/-- Replace every occurrence of the character `c` by the string `r`, as one
`String.prototype.replace(/c/g, r)` pass (the replacement output is not
re-scanned). -/
def replaceAllChar (c : Char) (r : List Char) : List Char → List Char
  | [] => []
  | x :: xs => (if x = c then r else [x]) ++ replaceAllChar c r xs

namespace SecurityUtils

/-- `sanitizeInput` on the character list: the seven sequential global
replacements `< > " ' / ` =` → `&lt; &gt; &quot; &#x27; &#x2F; &#96; &#x3D;`. -/
def sanitizeInputL (l : List Char) : List Char :=
  replaceAllChar '=' "&#x3D;".data
    (replaceAllChar (Char.ofNat 96) "&#96;".data
      (replaceAllChar '/' "&#x2F;".data
        (replaceAllChar (Char.ofNat 39) "&#x27;".data
          (replaceAllChar (Char.ofNat 34) "&quot;".data
            (replaceAllChar '>' "&gt;".data
              (replaceAllChar '<' "&lt;".data l))))))

/-- `sanitizeInput` of `securityUtils.js` (string case; non-strings pass through). -/
def sanitizeInput (s : String) : String := String.mk (sanitizeInputL s.data)

/-- `isValidEmail`: the anchored pattern one-or-more non-space-non-`@`, `@`,
then a domain part that splits as `x.y` with `x`, `y` nonempty. -/
def isValidEmail (email : String) : Bool :=
  let cs := email.data
  cs.all (fun c => !c.isWhitespace) && cs.count '@' == 1 &&
    !(cs.takeWhile (· ≠ '@')).isEmpty &&
    ((cs.dropWhile (· ≠ '@')).tail.drop 1).dropLast.contains '.'

/-- `isValidPhone`: `/^[6-9]\d{9}$/`. -/
def isValidPhone (phone : String) : Bool :=
  match phone.data with
  | c :: rest => 54 ≤ c.toNat && c.toNat ≤ 57 && rest.length == 9 && rest.all Char.isDigit
  | [] => false

/-- `isValidUSN`: `/^(NNM|NU)/i`. -/
def isValidUSN (usn : String) : Bool :=
  usn.toLower.startsWith "nnm" || usn.toLower.startsWith "nu"

end SecurityUtils

namespace Validators

/-- The second sanitizer variant: five sequential global replacements
`< > " ' /` → `&lt; &gt; &quot; &#x27; &#x2F;`. -/
def sanitizeInputL (l : List Char) : List Char :=
  replaceAllChar '/' "&#x2F;".data
    (replaceAllChar (Char.ofNat 39) "&#x27;".data
      (replaceAllChar (Char.ofNat 34) "&quot;".data
        (replaceAllChar '>' "&gt;".data
          (replaceAllChar '<' "&lt;".data l))))

/-- `sanitizeInput` of the validator module. -/
def sanitizeInput (s : String) : String := String.mk (sanitizeInputL s.data)

/-- `validatePhone`: `/^\d{10}$/`. -/
def validatePhone (phone : String) : Bool :=
  phone.data.length == 10 && phone.data.all Char.isDigit

end Validators

/-! ## Client payment service (`PaymentService` in the secure payment module)

The per-user rolling-window rate limiter and the order-creation path that
invokes it before any network request. -/

namespace PaymentService

/-- Five-minute window in milliseconds. -/
def windowMs : Nat := 300000

/-- `checkRateLimit` acting on one user's attempt list (the `rateLimitMap`
entry for that key): keep the attempts younger than five minutes; if three or
more remain, throw (state unchanged — the filtered list is discarded);
otherwise record `now` and allow.  `Nat` subtraction truncates at zero, which
agrees with the JS comparison `now - timestamp < 300000` for timestamps not
in the future. -/
def checkRateLimit (now : Nat) (attempts : List Nat) : Bool × List Nat :=
  let recentAttempts := attempts.filter (fun t => now - t < windowMs)
  if 3 ≤ recentAttempts.length then (false, attempts)
  else (true, recentAttempts ++ [now])

/-- A sequence of `checkRateLimit` calls at the given times against one map
entry, returning the times of the allowed attempts. -/
def rlAllowed (attempts : List Nat) : List Nat → List Nat
  | [] => []
  | now :: rest =>
    let c := checkRateLimit now attempts
    if c.1 then now :: rlAllowed c.2 rest else rlAllowed c.2 rest

/-- Modelled from the spec: the client plan catalog `membershipPlans`
(`data/membershipData`) is not among the provided sources; the spec states
the catalog is a fixed table identical on client and server, so the server's
`MEMBERSHIP_PLANS` mapping is reused. -/
def membershipPlans (planId : String) : Option Plan := MEMBERSHIP_PLANS planId

/-- The registrant form data handed to `createOrder`. -/
structure FormData where
  name : Option String := none
  email : Option String := none
  phone : Option String := none
  branch : Option String := none
  year : Option String := none
  usn : Option String := none
  whyJoin : Option String := none
deriving DecidableEq, Repr

/-- JS falsy-or-blank test `!value || String(value).trim() === ''`. -/
def blank : Option String → Bool
  | none => true
  | some s => s == "" || s.trim == ""

/-- `validatePaymentData`: collect the error messages in source order. -/
def validatePaymentData (formData : FormData) (selectedPlan : String) : List String :=
  (if (membershipPlans selectedPlan).isNone then ["Invalid membership plan selected"] else []) ++
  (if blank formData.name then ["name is required"] else []) ++
  (if blank formData.email then ["email is required"] else []) ++
  (if blank formData.phone then ["phone is required"] else []) ++
  (if blank formData.branch then ["branch is required"] else []) ++
  (if blank formData.year then ["year is required"] else []) ++
  (if blank formData.usn then ["usn is required"] else []) ++
  (match formData.email with
   | some e => if !SecurityUtils.isValidEmail e then ["Invalid email format"] else []
   | none => []) ++
  (match formData.phone with
   | some p => if p ≠ "" && !SecurityUtils.isValidPhone p then ["Invalid phone number"] else []
   | none => []) ++
  (match formData.usn with
   | some u => if u ≠ "" && !SecurityUtils.isValidUSN u then
      ["Invalid USN format (must start with NNM or NU)"] else []
   | none => [])

/-- `sanitizeFormData`: sanitize every string-valued field. -/
def sanitizeFormData (fd : FormData) : FormData :=
  { name := fd.name.map SecurityUtils.sanitizeInput,
    email := fd.email.map SecurityUtils.sanitizeInput,
    phone := fd.phone.map SecurityUtils.sanitizeInput,
    branch := fd.branch.map SecurityUtils.sanitizeInput,
    year := fd.year.map SecurityUtils.sanitizeInput,
    usn := fd.usn.map SecurityUtils.sanitizeInput,
    whyJoin := fd.whyJoin.map SecurityUtils.sanitizeInput }

/-- The body of the one `fetch(apiBaseUrl + "/create-order")` request the
client issues. -/
structure OrderFetch where
  userId : String
  planId : String
  amount : Nat
  formData : FormData
  transactionId : String
deriving DecidableEq, Repr

/-- `PaymentService.createOrder` (client side, backend URL configured): check
the rate limit first — a throw there returns the cooldown error before any
network request — then the plan, then the form data; on success issue exactly
one order-creation fetch carrying the sanitized form.  The result pairs the
thrown-or-sent outcome with the fetches issued and the new rate-limiter
state; `transactionId` stands for the randomly generated id. -/
def createOrder (attempts : List Nat) (now : Nat) (userId planId : String)
    (formData : FormData) (transactionId : String) :
    Except String OrderFetch × List OrderFetch × List Nat :=
  let c := checkRateLimit now attempts
  if !c.1 then
    (.error "Too many payment attempts. Please try again later.", [], attempts)
  else
    match membershipPlans planId with
    | none => (.error "Invalid plan selected", [], c.2)
    | some plan =>
      let errors := validatePaymentData formData planId
      if errors ≠ [] then (.error (String.intercalate ", " errors), [], c.2)
      else
        let fetch : OrderFetch :=
          { userId := userId, planId := planId, amount := plan.price,
            formData := sanitizeFormData formData, transactionId := transactionId }
        (.ok fetch, [fetch], c.2)

end PaymentService

/-- The window membership predicate used to state the rolling-window bound:
`t` lies in the five-minute window starting at `w`. -/
def PaymentService.wpred (w : Nat) : Nat → Bool :=
  fun t => decide (w ≤ t) && decide (t < w + PaymentService.windowMs)

/-! ## Helper lemmas -/

/-- A character is a decimal digit exactly when its code point lies in 48–57. -/
theorem isDigit_iff_toNat (c : Char) : c.isDigit = true ↔ 48 ≤ c.toNat ∧ c.toNat ≤ 57 := by
  simp [Char.isDigit, Char.le_def, Char.toNat, UInt32.le_def, BitVec.le_def, UInt32.toNat]

/-- Every character of a replacement pass comes from the replacement string or
is an unreplaced character of the input. -/
theorem mem_replaceAllChar (c : Char) (r l : List Char) :
    ∀ x ∈ replaceAllChar c r l, x ∈ r ∨ (x ∈ l ∧ x ≠ c) := by
  induction l with
  | nil => simp [replaceAllChar]
  | cons y ys ih =>
    intro x hx
    by_cases hyc : y = c <;> simp [replaceAllChar, hyc] at hx <;>
      rcases hx with hx | hx
    · exact Or.inl hx
    · rcases ih x hx with h | ⟨h1, h2⟩
      · exact Or.inl h
      · exact Or.inr ⟨List.mem_cons_of_mem y h1, h2⟩
    · subst hx; exact Or.inr ⟨List.mem_cons_self x ys, hyc⟩
    · rcases ih x hx with h | ⟨h1, h2⟩
      · exact Or.inl h
      · exact Or.inr ⟨List.mem_cons_of_mem y h1, h2⟩

/-- A replacement pass whose target does not occur is the identity. -/
theorem replaceAllChar_of_not_mem (c : Char) (r : List Char) :
    ∀ l : List Char, c ∉ l → replaceAllChar c r l = l := by
  intro l
  induction l with
  | nil => intro _; rfl
  | cons y ys ih =>
    intro h
    have hy : y ≠ c := fun hyc => h (hyc ▸ List.mem_cons_self y ys)
    have hys : c ∉ ys := fun hc => h (List.mem_cons_of_mem y hc)
    simp [replaceAllChar, hy, ih hys]

/-- Finding the merged user after `set(..., {merge: true})`: the stored
document is the merge function applied to the previous document, or to an
empty document when the user was absent. -/
theorem find?_mergeUsers (uid : String) (f : UserDoc → UserDoc) :
    ∀ l : List (String × UserDoc),
    ((if l.any (fun p => p.1 = uid) then l.map (fun p => if p.1 = uid then (p.1, f p.2) else p)
      else l ++ [(uid, f {})]).find? (fun p => p.1 = uid)).map Prod.snd
      = some (f (((l.find? (fun p => p.1 = uid)).map Prod.snd).getD {})) := by
  intro l
  induction l with
  | nil => simp
  | cons p rest ih =>
    by_cases hp : p.1 = uid
    · simp [List.any_cons, hp, List.find?_cons]
    · by_cases hr : rest.any (fun q => q.1 = uid)
      · simpa [List.any_cons, hp, hr, List.find?_cons] using ih
      · simpa [List.any_cons, hp, hr, List.find?_cons] using ih

/-- Reading back the user a merge-set wrote. -/
theorem getUser_setMergeUser (db : DB) (uid : String) (f : UserDoc → UserDoc) :
    (db.setMergeUser uid f).getUser uid = some (f ((db.getUser uid).getD {})) := by
  have h := find?_mergeUsers uid f db.users
  by_cases hc : (db.users.any (fun p => p.1 = uid)) = true <;>
    simp only [hc, if_true, if_false, Bool.false_eq_true] at h <;>
    simpa [DB.setMergeUser, DB.getUser, hc] using h

/-- A merge-set on the users collection leaves the payments ledger unchanged. -/
theorem payments_setMergeUser (db : DB) (uid : String) (f : UserDoc → UserDoc) :
    (db.setMergeUser uid f).payments = db.payments := by
  unfold DB.setMergeUser; split <;> rfl

/-! ## Claim theorems -/

/-- Claim C1: for every supported plan id, `/create-order` requests a gateway
order whose amount is the catalog price times 100 paise, in both server
variants; the client-supplied `amount` field of the request body is ignored
and never used. -/
theorem c1_create_order_amount_from_catalog
    (req : CreateOrderReq) (pid : String) (plan : Plan)
    (hpid : req.planId = some pid) (hplan : MEMBERSHIP_PLANS pid = some plan) :
    ServerA.createOrder req =
      .order { amount := plan.price * 100, currency := "INR",
               notesUserId := req.userId, notesPlanId := some pid,
               notesPlanName := plan.name } ∧
    (∀ a : Option Nat, ServerA.createOrder { req with amount := a } = ServerA.createOrder req) ∧
    (∀ (db : DB) (now : JsDate) (a : Option Nat),
      ServerB.createOrder db now { req with amount := a } = ServerB.createOrder db now req) ∧
    (∀ (db : DB) (now : JsDate) (o : OrderOptions),
      ServerB.createOrder db now req = .order o → o.amount = plan.price * 100) := by
  have hne : pid ≠ "" := by rintro rfl; simp [MEMBERSHIP_PLANS] at hplan
  refine ⟨?_, fun a => rfl, fun db now a => rfl, ?_⟩
  · simp [ServerA.createOrder, hpid, hne, hplan]
  · intro db now o h
    simp [ServerB.createOrder, hpid, hne, hplan] at h
    cases huid : req.userId with
    | none => simp [huid] at h
    | some uid =>
      simp [huid] at h
      split at h
      · simp at h
      · simp at h
        obtain rfl := h.symm
        rfl

/-- Concrete instance of claim C1: a one-year order is minted for 35800 paise
and changing the body's `amount` field does not change the outcome. -/
theorem c1_witness :
    ServerA.createOrder ⟨some "one-year", some "u1", some 5⟩ =
      .order ⟨35800, "INR", some "u1", some "one-year", "1-Year Executive Membership"⟩ ∧
    ServerA.createOrder ⟨some "one-year", some "u1", some 999999999⟩ =
      ServerA.createOrder ⟨some "one-year", some "u1", some 5⟩ :=
  ⟨(c1_create_order_amount_from_catalog ⟨some "one-year", some "u1", some 5⟩
      "one-year" _ rfl rfl).1,
   (c1_create_order_amount_from_catalog ⟨some "one-year", some "u1", some 5⟩
      "one-year" _ rfl rfl).2.1 (some 999999999)⟩

/-- Claim C2: `/verify-payment` accepts exactly when the supplied signature
equals the hex HMAC-SHA256 of `order_id + "|" + payment_id` under the key
secret (200 `{verified: true}`), rejects otherwise (400 `{verified: false}`),
and for a fixed pair any other signature than the accepted one is rejected. -/
theorem c2_verify_payment_iff (secret orderId paymentId signature : String) :
    (verifyPayment secret orderId paymentId signature = .accepted ↔
      signature = hmacSha256Hex secret (orderId ++ "|" ++ paymentId)) ∧
    (verifyPayment secret orderId paymentId signature = .rejected ↔
      signature ≠ hmacSha256Hex secret (orderId ++ "|" ++ paymentId)) ∧
    (VerifyRes.accepted.code = 200 ∧ VerifyRes.accepted.verified = true ∧
      VerifyRes.rejected.code = 400 ∧ VerifyRes.rejected.verified = false) ∧
    (∀ sig2, verifyPayment secret orderId paymentId signature = .accepted →
      sig2 ≠ signature → verifyPayment secret orderId paymentId sig2 = .rejected) := by
  by_cases h : signature = hmacSha256Hex secret (orderId ++ "|" ++ paymentId)
  · refine ⟨by simp [verifyPayment, h], by simp [verifyPayment, h],
      ⟨rfl, rfl, rfl, rfl⟩, ?_⟩
    intro sig2 _ hne
    have h2 : sig2 ≠ hmacSha256Hex secret (orderId ++ "|" ++ paymentId) := h ▸ hne
    simp [verifyPayment, h2]
  · refine ⟨by simp [verifyPayment, h], by simp [verifyPayment, h],
      ⟨rfl, rfl, rfl, rfl⟩, ?_⟩
    intro sig2 hacc _
    simp [verifyPayment, h] at hacc

/-- Concrete instance of claim C2: the genuine digest of `order_1|pay_1`
under secret `ksec` is accepted and a mutated signature is rejected. -/
theorem c2_witness :
    verifyPayment "ksec" "order_1" "pay_1"
      "997b03fd15769b270e0688c40c68bac6168f6ad4baee1518bae3fd577b83b29c" = .accepted ∧
    verifyPayment "ksec" "order_1" "pay_1"
      "097b03fd15769b270e0688c40c68bac6168f6ad4baee1518bae3fd577b83b29c" = .rejected :=
  have h : verifyPayment "ksec" "order_1" "pay_1"
      "997b03fd15769b270e0688c40c68bac6168f6ad4baee1518bae3fd577b83b29c" = .accepted :=
    (c2_verify_payment_iff "ksec" "order_1" "pay_1"
      "997b03fd15769b270e0688c40c68bac6168f6ad4baee1518bae3fd577b83b29c").1.mpr (by decide)
  ⟨h, (c2_verify_payment_iff "ksec" "order_1" "pay_1"
      "997b03fd15769b270e0688c40c68bac6168f6ad4baee1518bae3fd577b83b29c").2.2.2
      "097b03fd15769b270e0688c40c68bac6168f6ad4baee1518bae3fd577b83b29c" h (by decide)⟩

/-- Claim C8: the registrant phone validator accepts exactly the ten-digit
strings whose leading digit is 6–9, rejecting `"1234567890"` and accepting
`"9876543210"`, while the second validator (`/^\d{10}$/`) accepts
`"1234567890"`. -/
theorem c8_phone_validators :
    SecurityUtils.isValidPhone "1234567890" = false ∧
    SecurityUtils.isValidPhone "9876543210" = true ∧
    Validators.validatePhone "1234567890" = true ∧
    (∀ s : String, SecurityUtils.isValidPhone s = true ↔
      (s.data.length = 10 ∧ (∀ c ∈ s.data, c.isDigit = true) ∧
        ∃ c rest, s.data = c :: rest ∧ 54 ≤ c.toNat ∧ c.toNat ≤ 57)) := by
  refine ⟨rfl, rfl, rfl, ?_⟩
  intro s
  cases hs : s.data with
  | nil => simp [SecurityUtils.isValidPhone, hs]
  | cons c rest =>
    simp only [SecurityUtils.isValidPhone, hs]
    constructor
    · intro h
      simp only [Bool.and_eq_true, decide_eq_true_eq, Nat.beq_eq_true_eq,
        List.all_eq_true] at h
      obtain ⟨⟨⟨h6, h9⟩, hlen⟩, hdig⟩ := h
      refine ⟨by simp [hlen], ?_, c, rest, rfl, h6, h9⟩
      intro x hx
      rcases List.mem_cons.mp hx with rfl | hx
      · exact (isDigit_iff_toNat x).mpr ⟨by omega, by omega⟩
      · exact hdig x hx
    · rintro ⟨hlen, hdig, c', rest', heq, h6, h9⟩
      injection heq with h1 h2
      subst h1; subst h2
      simp only [Bool.and_eq_true, decide_eq_true_eq, Nat.beq_eq_true_eq,
        List.all_eq_true]
      refine ⟨⟨⟨h6, h9⟩, by simpa using hlen⟩, ?_⟩
      intro x hx
      exact hdig x (List.mem_cons_of_mem c hx)

/-- Concrete instance of claim C8: the characterization applied at
`"9876543210"`. -/
theorem c8_witness : SecurityUtils.isValidPhone "9876543210" = true :=
  (c8_phone_validators.2.2.2 "9876543210").mpr
    ⟨by decide, by decide, '9', "876543210".data, rfl, by decide, by decide⟩

/-- Claim C5: a user whose stored membership is `active` with a future
expiry is rejected with 400 by the create-order variant carrying the
duplicate-purchase guard, while the variant without the guard mints a fresh
catalog-priced order for the same request. -/
theorem c5_active_subscription_guard
    (db : DB) (now : JsDate) (req : CreateOrderReq) (uid : String) (u : UserDoc)
    (expiry : JsDate) (pid : String) (plan : Plan)
    (huid : req.userId = some uid) (hu : db.getUser uid = some u)
    (hstatus : u.membership.status = some "active")
    (hexp : u.membership.expiresAt = some expiry)
    (hfut : JsDate.lt now expiry = true)
    (hpid : req.planId = some pid) (hplan : MEMBERSHIP_PLANS pid = some plan) :
    ServerB.createOrder db now req = .alreadyActive ∧
    CreateOrderRes.alreadyActive.code = 400 ∧
    ServerA.createOrder req =
      .order { amount := plan.price * 100, currency := "INR",
               notesUserId := some uid, notesPlanId := some pid,
               notesPlanName := plan.name } := by
  have hne : pid ≠ "" := by rintro rfl; simp [MEMBERSHIP_PLANS] at hplan
  refine ⟨?_, rfl, ?_⟩
  · simp [ServerB.createOrder, hpid, hne, hplan, huid, hu, hstatus, hexp, hfut]
  · simp [ServerA.createOrder, hpid, hne, hplan, huid]

/-- Concrete instance of claim C5: an active user unexpired until 2026 is
rejected by the guard variant on 2025-01-01 and served by the other. -/
theorem c5_witness :
    ServerB.createOrder
      ⟨[("u1", { membership := { status := some "active", expiresAt := some ⟨2026, 0, 1, 0⟩ } })], []⟩
      ⟨2025, 0, 1, 0⟩ ⟨some "one-year", some "u1", none⟩ = .alreadyActive ∧
    ServerA.createOrder ⟨some "one-year", some "u1", none⟩ =
      .order ⟨35800, "INR", some "u1", some "one-year", "1-Year Executive Membership"⟩ :=
  have h := c5_active_subscription_guard
    ⟨[("u1", { membership := { status := some "active", expiresAt := some ⟨2026, 0, 1, 0⟩ } })], []⟩
    ⟨2025, 0, 1, 0⟩ ⟨some "one-year", some "u1", none⟩ "u1"
    { membership := { status := some "active", expiresAt := some ⟨2026, 0, 1, 0⟩ } }
    ⟨2026, 0, 1, 0⟩ "one-year" _ rfl rfl rfl rfl (by decide) rfl rfl
  ⟨h.1, h.2.2⟩

/-- Claim C3: a webhook request with a missing `x-razorpay-signature` header
or a header differing from the HMAC-SHA256 digest of the request body is
answered with 400 and leaves the whole database untouched, in both server
variants, regardless of event type or payload. -/
theorem c3_webhook_bad_signature_no_write
    (secret : String) (now : JsDate) (nowMs : Nat) (mOk pOk : Bool)
    (sig : Option String) (body : WebhookBody) (db : DB)
    (hbad : ∀ s, sig = some s → s ≠ hmacSha256Hex secret (stringifyBody body)) :
    ((ServerB.webhook secret now mOk pOk sig body db).1.code = 400 ∧
     (ServerB.webhook secret now mOk pOk sig body db).2 = db) ∧
    ((ServerA.webhook secret nowMs mOk pOk sig body db).1.code = 400 ∧
     (ServerA.webhook secret nowMs mOk pOk sig body db).2 = db) := by
  cases sig with
  | none => exact ⟨⟨rfl, rfl⟩, ⟨rfl, rfl⟩⟩
  | some s =>
    have hne : hmacSha256Hex secret (stringifyBody body) ≠ s := fun h => hbad s rfl h.symm
    refine ⟨⟨?_, ?_⟩, ⟨?_, ?_⟩⟩ <;> simp [ServerB.webhook, ServerA.webhook, hne] <;> rfl

/-- Concrete instance of claim C3: the signature `"x"` is rejected for a
captured-payment body and the database is returned unchanged. -/
theorem c3_witness :
    ((ServerB.webhook "whsec" ⟨2025, 5, 15, 0⟩ true true (some "x")
        ⟨"payment.captured", ⟨"pay_1", "order_1", 35800, "INR", some "u1", some "one-year", none⟩⟩
        ⟨[], []⟩).1.code = 400 ∧
     (ServerB.webhook "whsec" ⟨2025, 5, 15, 0⟩ true true (some "x")
        ⟨"payment.captured", ⟨"pay_1", "order_1", 35800, "INR", some "u1", some "one-year", none⟩⟩
        ⟨[], []⟩).2 = ⟨[], []⟩) ∧
    ((ServerA.webhook "whsec" 1750000000000 true true (some "x")
        ⟨"payment.captured", ⟨"pay_1", "order_1", 35800, "INR", some "u1", some "one-year", none⟩⟩
        ⟨[], []⟩).1.code = 400 ∧
     (ServerA.webhook "whsec" 1750000000000 true true (some "x")
        ⟨"payment.captured", ⟨"pay_1", "order_1", 35800, "INR", some "u1", some "one-year", none⟩⟩
        ⟨[], []⟩).2 = ⟨[], []⟩) :=
  c3_webhook_bad_signature_no_write "whsec" ⟨2025, 5, 15, 0⟩ 1750000000000 true true (some "x")
    ⟨"payment.captured", ⟨"pay_1", "order_1", 35800, "INR", some "u1", some "one-year", none⟩⟩
    ⟨[], []⟩ (fun s hs => by injection hs with h; subst h; decide)

/-- Claim C4: a correctly signed `payment.captured` webhook whose notes carry
a user id and plan id activates the membership — status `active`, `type` the
plan id, `expiresAt` one day before now plus the plan's whole-year duration —
and appends exactly one ledger row with the captured amount divided by 100
(358 rupees for the one-year plan's 35800 paise). -/
theorem c4_webhook_captured_activates
    (secret : String) (now : JsDate) (body : WebhookBody) (db : DB) (uid pid : String)
    (hev : body.event = "payment.captured")
    (huid : body.payment.notesUserId = some uid) (huidne : uid ≠ "")
    (hpid : body.payment.notesPlanId = some pid) (hpidne : pid ≠ "") :
    (ServerB.webhook secret now true true
        (some (hmacSha256Hex secret (stringifyBody body))) body db).1 = .okStatus ∧
    (ServerB.webhook secret now true true
        (some (hmacSha256Hex secret (stringifyBody body))) body db).2.getUser uid =
      some { (db.getUser uid).getD {} with
             membership := { ((db.getUser uid).getD {}).membership with
               status := some "active", type := some pid, startDate := some (),
               expiresAt := some (JsDate.addYears (durationYears pid) now.subOneDay) },
             role := some "EXECUTIVE MEMBER", updatedAt := some () } ∧
    (ServerB.webhook secret now true true
        (some (hmacSha256Hex secret (stringifyBody body))) body db).2.payments =
      db.payments ++
        [{ userId := uid, paymentId := body.payment.id, orderId := body.payment.order_id,
           amount := (body.payment.amount : Rat) / 100, currency := body.payment.currency,
           status := "success", planId := pid }] ∧
    durationYears "one-year" = 1 ∧ (35800 : Rat) / 100 = 358 := by
  refine ⟨?_, ?_, ?_, rfl, by norm_num⟩ <;>
    simp [ServerB.webhook, hev, huid, hpid, truthyStr, huidne, hpidne,
      getUser_setMergeUser, payments_setMergeUser]
  exact getUser_setMergeUser db uid _

/-- Concrete instance of claim C4: a verified one-year capture of 35800 paise
on 2025-06-15 stores an active membership expiring 2026-06-14 and one ledger
row of 358 rupees. -/
theorem c4_witness :
    (ServerB.webhook "whsec" ⟨2025, 5, 15, 0⟩ true true
        (some (hmacSha256Hex "whsec" (stringifyBody ⟨"payment.captured",
          ⟨"pay_1", "order_1", 35800, "INR", some "u1", some "one-year", none⟩⟩)))
        ⟨"payment.captured", ⟨"pay_1", "order_1", 35800, "INR", some "u1", some "one-year", none⟩⟩
        ⟨[], []⟩).1 = .okStatus ∧
    (ServerB.webhook "whsec" ⟨2025, 5, 15, 0⟩ true true
        (some (hmacSha256Hex "whsec" (stringifyBody ⟨"payment.captured",
          ⟨"pay_1", "order_1", 35800, "INR", some "u1", some "one-year", none⟩⟩)))
        ⟨"payment.captured", ⟨"pay_1", "order_1", 35800, "INR", some "u1", some "one-year", none⟩⟩
        ⟨[], []⟩).2.getUser "u1" =
      some ⟨⟨some "active", some "one-year", none, some (), some ⟨2026, 5, 14, 0⟩, none⟩,
        some "EXECUTIVE MEMBER", some ()⟩ ∧
    (ServerB.webhook "whsec" ⟨2025, 5, 15, 0⟩ true true
        (some (hmacSha256Hex "whsec" (stringifyBody ⟨"payment.captured",
          ⟨"pay_1", "order_1", 35800, "INR", some "u1", some "one-year", none⟩⟩)))
        ⟨"payment.captured", ⟨"pay_1", "order_1", 35800, "INR", some "u1", some "one-year", none⟩⟩
        ⟨[], []⟩).2.payments =
      [⟨"u1", "pay_1", "order_1", (35800 : Rat) / 100, "INR", "success", "one-year", some ()⟩] :=
  have h := c4_webhook_captured_activates "whsec" ⟨2025, 5, 15, 0⟩
    ⟨"payment.captured", ⟨"pay_1", "order_1", 35800, "INR", some "u1", some "one-year", none⟩⟩
    ⟨[], []⟩ "u1" "one-year" rfl rfl (by decide) rfl (by decide)
  ⟨h.1, h.2.1.trans (by decide), h.2.2.1⟩

/-- Claim C6: a correctly signed webhook whose event is not
`payment.captured`, or whose payment notes lack a truthy `userId` or
`planId`, is answered 200 `{status: "ok"}` with no database mutation, in both
server variants. -/
theorem c6_webhook_inapplicable_noop
    (secret : String) (now : JsDate) (nowMs : Nat) (mOk pOk : Bool)
    (body : WebhookBody) (db : DB)
    (hinapp : body.event ≠ "payment.captured" ∨
      truthyStr body.payment.notesUserId = false ∨
      truthyStr body.payment.notesPlanId = false) :
    ServerB.webhook secret now mOk pOk
      (some (hmacSha256Hex secret (stringifyBody body))) body db = (.okStatus, db) ∧
    ServerA.webhook secret nowMs mOk pOk
      (some (hmacSha256Hex secret (stringifyBody body))) body db = (.okStatus, db) ∧
    WebhookRes.okStatus.code = 200 := by
  refine ⟨?_, ?_, rfl⟩ <;>
  · rcases hinapp with h | h | h <;> simp [ServerB.webhook, ServerA.webhook, h]

/-- Concrete instance of claim C6: a correctly signed captured event without
a `userId` note leaves a nonempty database unchanged and returns 200. -/
theorem c6_witness :
    ServerB.webhook "whsec" ⟨2025, 5, 15, 0⟩ true true
      (some (hmacSha256Hex "whsec" (stringifyBody ⟨"payment.captured",
        ⟨"pay_2", "order_2", 35800, "INR", none, some "one-year", none⟩⟩)))
      ⟨"payment.captured", ⟨"pay_2", "order_2", 35800, "INR", none, some "one-year", none⟩⟩
      ⟨[("u1", {})], []⟩ = (.okStatus, ⟨[("u1", {})], []⟩) ∧
    ServerA.webhook "whsec" 1750000000000 true true
      (some (hmacSha256Hex "whsec" (stringifyBody ⟨"payment.captured",
        ⟨"pay_2", "order_2", 35800, "INR", none, some "one-year", none⟩⟩)))
      ⟨"payment.captured", ⟨"pay_2", "order_2", 35800, "INR", none, some "one-year", none⟩⟩
      ⟨[("u1", {})], []⟩ = (.okStatus, ⟨[("u1", {})], []⟩) :=
  have h := c6_webhook_inapplicable_noop "whsec" ⟨2025, 5, 15, 0⟩ 1750000000000 true true
    ⟨"payment.captured", ⟨"pay_2", "order_2", 35800, "INR", none, some "one-year", none⟩⟩
    ⟨[("u1", {})], []⟩ (Or.inr (Or.inl rfl))
  ⟨h.1, h.2.1⟩

/-- Claim C9: the webhook's 500 persistence failure is not atomic — when the
membership merge succeeds and the ledger append throws, the handler answers
500 while the membership mutation is already stored and the ledger is
unchanged, in both server variants. -/
theorem c9_webhook_500_after_membership_write
    (secret : String) (now : JsDate) (nowMs : Nat) (body : WebhookBody) (db : DB)
    (uid pid : String)
    (hev : body.event = "payment.captured")
    (huid : body.payment.notesUserId = some uid) (huidne : uid ≠ "")
    (hpid : body.payment.notesPlanId = some pid) (hpidne : pid ≠ "") :
    ((ServerB.webhook secret now true false
        (some (hmacSha256Hex secret (stringifyBody body))) body db).1 = .dbError ∧
     (ServerB.webhook secret now true false
        (some (hmacSha256Hex secret (stringifyBody body))) body db).2.getUser uid =
       some { (db.getUser uid).getD {} with
              membership := { ((db.getUser uid).getD {}).membership with
                status := some "active", type := some pid, startDate := some (),
                expiresAt := some (JsDate.addYears (durationYears pid) now.subOneDay) },
              role := some "EXECUTIVE MEMBER", updatedAt := some () } ∧
     (ServerB.webhook secret now true false
        (some (hmacSha256Hex secret (stringifyBody body))) body db).2.payments =
       db.payments) ∧
    ((ServerA.webhook secret nowMs true false
        (some (hmacSha256Hex secret (stringifyBody body))) body db).1 = .dbError ∧
     (ServerA.webhook secret nowMs true false
        (some (hmacSha256Hex secret (stringifyBody body))) body db).2.getUser uid =
       some { (db.getUser uid).getD {} with
              membership := { ((db.getUser uid).getD {}).membership with
                status := some "active", planId := some pid, startDate := some (),
                expiryDate := some (nowMs +
                  (if pid = "one-year" then 365 else if pid = "two-year" then 730 else 1095)
                    * 24 * 60 * 60 * 1000) },
              role := some "EXECUTIVE MEMBER", updatedAt := some () } ∧
     (ServerA.webhook secret nowMs true false
        (some (hmacSha256Hex secret (stringifyBody body))) body db).2.payments =
       db.payments) ∧
    WebhookRes.dbError.code = 500 := by
  refine ⟨⟨?_, ?_, ?_⟩, ⟨?_, ?_, ?_⟩, rfl⟩ <;>
    simp [ServerB.webhook, ServerA.webhook, hev, huid, hpid, truthyStr, huidne, hpidne,
      getUser_setMergeUser, payments_setMergeUser]

/-- Concrete instance of claim C9: with a failing ledger append the handler
answers 500 yet the stored membership is already active. -/
theorem c9_witness :
    (ServerB.webhook "whsec" ⟨2025, 5, 15, 0⟩ true false
        (some (hmacSha256Hex "whsec" (stringifyBody ⟨"payment.captured",
          ⟨"pay_1", "order_1", 35800, "INR", some "u1", some "one-year", none⟩⟩)))
        ⟨"payment.captured", ⟨"pay_1", "order_1", 35800, "INR", some "u1", some "one-year", none⟩⟩
        ⟨[], []⟩).1 = .dbError ∧
    (ServerB.webhook "whsec" ⟨2025, 5, 15, 0⟩ true false
        (some (hmacSha256Hex "whsec" (stringifyBody ⟨"payment.captured",
          ⟨"pay_1", "order_1", 35800, "INR", some "u1", some "one-year", none⟩⟩)))
        ⟨"payment.captured", ⟨"pay_1", "order_1", 35800, "INR", some "u1", some "one-year", none⟩⟩
        ⟨[], []⟩).2.getUser "u1" =
      some ⟨⟨some "active", some "one-year", none, some (), some ⟨2026, 5, 14, 0⟩, none⟩,
        some "EXECUTIVE MEMBER", some ()⟩ ∧
    (ServerB.webhook "whsec" ⟨2025, 5, 15, 0⟩ true false
        (some (hmacSha256Hex "whsec" (stringifyBody ⟨"payment.captured",
          ⟨"pay_1", "order_1", 35800, "INR", some "u1", some "one-year", none⟩⟩)))
        ⟨"payment.captured", ⟨"pay_1", "order_1", 35800, "INR", some "u1", some "one-year", none⟩⟩
        ⟨[], []⟩).2.payments = [] :=
  have h := c9_webhook_500_after_membership_write "whsec" ⟨2025, 5, 15, 0⟩ 1750000000000
    ⟨"payment.captured", ⟨"pay_1", "order_1", 35800, "INR", some "u1", some "one-year", none⟩⟩
    ⟨[], []⟩ "u1" "one-year" rfl rfl (by decide) rfl (by decide)
  ⟨h.1.1, h.1.2.1.trans (by decide), h.1.2.2⟩

/-- Every allowed attempt time is one of the call times. -/
theorem rlAllowed_mem (s : List Nat) (calls : List Nat) :
    ∀ t ∈ PaymentService.rlAllowed s calls, t ∈ calls := by
  induction calls generalizing s with
  | nil => simp [PaymentService.rlAllowed]
  | cons now rest ih =>
    intro t ht
    simp only [PaymentService.rlAllowed] at ht
    split at ht
    · rcases List.mem_cons.mp ht with rfl | ht'
      · exact List.mem_cons_self _ _
      · exact List.mem_cons_of_mem _ (ih _ t ht')
    · exact List.mem_cons_of_mem _ (ih _ t ht)

/-- Rolling-window invariant of the rate limiter: along any nondecreasing
sequence of calls, the allowed attempts falling in a fixed five-minute window
never exceed three minus the in-window attempts already stored. -/
theorem rlAllowed_window_le (calls : List Nat) :
    ∀ (s : List Nat) (T w : Nat),
    (∀ t ∈ s, t ≤ T) → List.Pairwise (· ≤ ·) (T :: calls) →
    ((PaymentService.rlAllowed s calls).filter (PaymentService.wpred w)).length
      ≤ 3 - (s.filter (PaymentService.wpred w)).length := by
  induction calls with
  | nil => intro s T w _ _; simp [PaymentService.rlAllowed]
  | cons now rest ih =>
    intro s T w hs hp
    have hTn : T ≤ now := (List.pairwise_cons.mp hp).1 now (List.mem_cons_self _ _)
    have hp' : List.Pairwise (· ≤ ·) (now :: rest) := (List.pairwise_cons.mp hp).2
    by_cases hfull : 3 ≤ (s.filter (fun t => now - t < PaymentService.windowMs)).length
    · have hstep : PaymentService.checkRateLimit now s = (false, s) := by
        simp [PaymentService.checkRateLimit, hfull]
      simp only [PaymentService.rlAllowed, hstep]
      exact ih s now w (fun t ht => le_trans (hs t ht) hTn) hp'
    · have hstep : PaymentService.checkRateLimit now s =
          (true, s.filter (fun t => now - t < PaymentService.windowMs) ++ [now]) := by
        simp [PaymentService.checkRateLimit, hfull]
      simp only [PaymentService.rlAllowed, hstep, if_true]
      have hs'bound : ∀ t ∈ s.filter (fun t => now - t < PaymentService.windowMs) ++ [now],
          t ≤ now := by
        intro t ht
        rcases List.mem_append.mp ht with h | h
        · exact le_trans (hs t (List.mem_of_mem_filter h)) hTn
        · simp at h; omega
      have hIH := ih _ now w hs'bound hp'
      by_cases hw : PaymentService.wpred w now = true
      · have hw1 : w ≤ now ∧ now < w + PaymentService.windowMs := by
          simpa [PaymentService.wpred] using hw
        have hsub : s.filter (PaymentService.wpred w) =
            (s.filter (fun t => now - t < PaymentService.windowMs)).filter
              (PaymentService.wpred w) := by
          rw [List.filter_filter]
          apply List.filter_congr
          intro t ht
          by_cases hwp : PaymentService.wpred w t = true
          · have hb : w ≤ t ∧ t < w + PaymentService.windowMs := by
              simpa [PaymentService.wpred] using hwp
            have htT : t ≤ T := hs t ht
            have hnt : now - t < PaymentService.windowMs := by omega
            simp [hwp, hnt]
          · simp [hwp]
        have hsFW_le : (s.filter (PaymentService.wpred w)).length ≤
            (s.filter (fun t => now - t < PaymentService.windowMs)).length := by
          rw [hsub]; exact List.length_filter_le _ _
        have hs'FW : ((s.filter (fun t => now - t < PaymentService.windowMs) ++ [now]).filter
            (PaymentService.wpred w)).length
            = (s.filter (PaymentService.wpred w)).length + 1 := by
          rw [List.filter_append, ← hsub]
          simp [hw]
        rw [hs'FW] at hIH
        have hcons : ((now :: PaymentService.rlAllowed
            (s.filter (fun t => now - t < PaymentService.windowMs) ++ [now]) rest).filter
              (PaymentService.wpred w)).length
            = ((PaymentService.rlAllowed
                (s.filter (fun t => now - t < PaymentService.windowMs) ++ [now]) rest).filter
                  (PaymentService.wpred w)).length + 1 := by
          simp [hw]
        rw [hcons]
        omega
      · by_cases hlt : now < w
        · have hsFW0 : (s.filter (PaymentService.wpred w)).length = 0 := by
            rw [List.length_eq_zero, List.filter_eq_nil_iff]
            intro t ht
            have htT : t ≤ T := hs t ht
            simp [PaymentService.wpred]
            omega
          have hcons : ((now :: PaymentService.rlAllowed
              (s.filter (fun t => now - t < PaymentService.windowMs) ++ [now]) rest).filter
                (PaymentService.wpred w)).length
              = ((PaymentService.rlAllowed
                  (s.filter (fun t => now - t < PaymentService.windowMs) ++ [now]) rest).filter
                    (PaymentService.wpred w)).length := by
            simp [hw]
          rw [hcons, hsFW0]
          exact le_trans hIH (Nat.sub_le 3 _)
        · have hge : w + PaymentService.windowMs ≤ now := by
            simp [PaymentService.wpred] at hw
            omega
          have hnil : ((now :: PaymentService.rlAllowed
              (s.filter (fun t => now - t < PaymentService.windowMs) ++ [now]) rest).filter
                (PaymentService.wpred w)) = [] := by
            rw [List.filter_eq_nil_iff]
            intro t ht
            rcases List.mem_cons.mp ht with rfl | ht'
            · simp [PaymentService.wpred]; omega
            · have htrest := rlAllowed_mem _ rest t ht'
              have hnt : now ≤ t := (List.pairwise_cons.mp hp').1 t htrest
              simp [PaymentService.wpred]
              omega
          rw [hnil]
          simp


/-- Claim C7: the client rate limiter allows at most 3 attempts inside any
rolling five-minute window; with three recent attempts stored, a further
`createOrder` call fails fast with the cooldown message, issuing no network
request and leaving the limiter state unchanged, while fewer than three
recent attempts are still allowed. -/
theorem c7_payment_rate_limiter :
    (∀ (calls : List Nat) (w : Nat), List.Chain' (· ≤ ·) calls →
      ((PaymentService.rlAllowed [] calls).filter (PaymentService.wpred w)).length ≤ 3) ∧
    (∀ (attempts : List Nat) (now : Nat),
      3 ≤ (attempts.filter (fun t => now - t < PaymentService.windowMs)).length →
      ∀ (userId planId : String) (fd : PaymentService.FormData) (tx : String),
        PaymentService.createOrder attempts now userId planId fd tx =
          (.error "Too many payment attempts. Please try again later.", [], attempts)) ∧
    (∀ (attempts : List Nat) (now : Nat),
      (attempts.filter (fun t => now - t < PaymentService.windowMs)).length < 3 →
      (PaymentService.checkRateLimit now attempts).1 = true) := by
  refine ⟨?_, ?_, ?_⟩
  · intro calls w hch
    have hp : List.Pairwise (· ≤ ·) (0 :: calls) :=
      List.pairwise_cons.mpr ⟨fun t _ => Nat.zero_le t, List.chain'_iff_pairwise.mp hch⟩
    simpa using rlAllowed_window_le calls [] 0 w (by simp) hp
  · intro attempts now hfull userId planId fd tx
    have hstep : PaymentService.checkRateLimit now attempts = (false, attempts) := by
      simp [PaymentService.checkRateLimit, hfull]
    simp [PaymentService.createOrder, hstep]
  · intro attempts now hlt
    simp [PaymentService.checkRateLimit, Nat.not_le.mpr hlt]

/-- Concrete instance of claim C7: four immediate attempts stay within the
bound and the fourth is refused before any fetch. -/
theorem c7_witness :
    ((PaymentService.rlAllowed [] [0, 1, 2, 3]).filter (PaymentService.wpred 0)).length ≤ 3 ∧
    PaymentService.createOrder [0, 1, 2] 3 "u1" "one-year" {} "tx" =
      (.error "Too many payment attempts. Please try again later.", [], [0, 1, 2]) ∧
    (PaymentService.checkRateLimit 5 [0]).1 = true :=
  ⟨c7_payment_rate_limiter.1 [0, 1, 2, 3] 0 (by rw [List.chain'_iff_pairwise]; decide),
   c7_payment_rate_limiter.2.1 [0, 1, 2] 3 (by decide) "u1" "one-year" {} "tx",
   c7_payment_rate_limiter.2.2 [0] 5 (by decide)⟩


/-- No character of the seven-pass sanitizer output is one of the seven
escaped characters: every replacement string avoids all of them. -/
theorem mem_sanitizeInputL_su (l : List Char) :
    ∀ x ∈ SecurityUtils.sanitizeInputL l,
      x ≠ '<' ∧ x ≠ '>' ∧ x ≠ Char.ofNat 34 ∧ x ≠ Char.ofNat 39 ∧
      x ≠ '/' ∧ x ≠ Char.ofNat 96 ∧ x ≠ '=' := by
  intro x hx
  unfold SecurityUtils.sanitizeInputL at hx
  rcases mem_replaceAllChar _ _ _ x hx with h | ⟨hx, h7⟩
  · rw [show "&#x3D;".data = ['&', '#', 'x', '3', 'D', ';'] from rfl] at h
    fin_cases h <;> exact ⟨by decide, by decide, by decide, by decide, by decide, by decide, by decide⟩
  rcases mem_replaceAllChar _ _ _ x hx with h | ⟨hx, h6⟩
  · rw [show "&#96;".data = ['&', '#', '9', '6', ';'] from rfl] at h
    fin_cases h <;> exact ⟨by decide, by decide, by decide, by decide, by decide, by decide, h7⟩
  rcases mem_replaceAllChar _ _ _ x hx with h | ⟨hx, h5⟩
  · rw [show "&#x2F;".data = ['&', '#', 'x', '2', 'F', ';'] from rfl] at h
    fin_cases h <;> exact ⟨by decide, by decide, by decide, by decide, by decide, h6, h7⟩
  rcases mem_replaceAllChar _ _ _ x hx with h | ⟨hx, h4⟩
  · rw [show "&#x27;".data = ['&', '#', 'x', '2', '7', ';'] from rfl] at h
    fin_cases h <;> exact ⟨by decide, by decide, by decide, by decide, h5, h6, h7⟩
  rcases mem_replaceAllChar _ _ _ x hx with h | ⟨hx, h3⟩
  · rw [show "&quot;".data = ['&', 'q', 'u', 'o', 't', ';'] from rfl] at h
    fin_cases h <;> exact ⟨by decide, by decide, by decide, h4, h5, h6, h7⟩
  rcases mem_replaceAllChar _ _ _ x hx with h | ⟨hx, h2⟩
  · rw [show "&gt;".data = ['&', 'g', 't', ';'] from rfl] at h
    fin_cases h <;> exact ⟨by decide, by decide, h3, h4, h5, h6, h7⟩
  rcases mem_replaceAllChar _ _ _ x hx with h | ⟨hx, h1⟩
  · rw [show "&lt;".data = ['&', 'l', 't', ';'] from rfl] at h
    fin_cases h <;> exact ⟨by decide, h2, h3, h4, h5, h6, h7⟩
  exact ⟨h1, h2, h3, h4, h5, h6, h7⟩

/-- No character of the five-pass sanitizer output is one of the five
escaped characters. -/
theorem mem_sanitizeInputL_v (l : List Char) :
    ∀ x ∈ Validators.sanitizeInputL l,
      x ≠ '<' ∧ x ≠ '>' ∧ x ≠ Char.ofNat 34 ∧ x ≠ Char.ofNat 39 ∧ x ≠ '/' := by
  intro x hx
  unfold Validators.sanitizeInputL at hx
  rcases mem_replaceAllChar _ _ _ x hx with h | ⟨hx, h5⟩
  · rw [show "&#x2F;".data = ['&', '#', 'x', '2', 'F', ';'] from rfl] at h
    fin_cases h <;> exact ⟨by decide, by decide, by decide, by decide, by decide⟩
  rcases mem_replaceAllChar _ _ _ x hx with h | ⟨hx, h4⟩
  · rw [show "&#x27;".data = ['&', '#', 'x', '2', '7', ';'] from rfl] at h
    fin_cases h <;> exact ⟨by decide, by decide, by decide, by decide, h5⟩
  rcases mem_replaceAllChar _ _ _ x hx with h | ⟨hx, h3⟩
  · rw [show "&quot;".data = ['&', 'q', 'u', 'o', 't', ';'] from rfl] at h
    fin_cases h <;> exact ⟨by decide, by decide, by decide, h4, h5⟩
  rcases mem_replaceAllChar _ _ _ x hx with h | ⟨hx, h2⟩
  · rw [show "&gt;".data = ['&', 'g', 't', ';'] from rfl] at h
    fin_cases h <;> exact ⟨by decide, by decide, h3, h4, h5⟩
  rcases mem_replaceAllChar _ _ _ x hx with h | ⟨hx, h1⟩
  · rw [show "&lt;".data = ['&', 'l', 't', ';'] from rfl] at h
    fin_cases h <;> exact ⟨by decide, h2, h3, h4, h5⟩
  exact ⟨h1, h2, h3, h4, h5⟩

/-- List-level idempotence of the seven-pass sanitizer. -/
theorem sanitizeInputL_su_idem (l : List Char) :
    SecurityUtils.sanitizeInputL (SecurityUtils.sanitizeInputL l) =
      SecurityUtils.sanitizeInputL l := by
  have h := mem_sanitizeInputL_su l
  conv_lhs => rw [SecurityUtils.sanitizeInputL]
  rw [replaceAllChar_of_not_mem '<' "&lt;".data _ (fun hm => (h _ hm).1 rfl),
    replaceAllChar_of_not_mem '>' "&gt;".data _ (fun hm => (h _ hm).2.1 rfl),
    replaceAllChar_of_not_mem (Char.ofNat 34) "&quot;".data _ (fun hm => (h _ hm).2.2.1 rfl),
    replaceAllChar_of_not_mem (Char.ofNat 39) "&#x27;".data _ (fun hm => (h _ hm).2.2.2.1 rfl),
    replaceAllChar_of_not_mem '/' "&#x2F;".data _ (fun hm => (h _ hm).2.2.2.2.1 rfl),
    replaceAllChar_of_not_mem (Char.ofNat 96) "&#96;".data _ (fun hm => (h _ hm).2.2.2.2.2.1 rfl),
    replaceAllChar_of_not_mem '=' "&#x3D;".data _ (fun hm => (h _ hm).2.2.2.2.2.2 rfl)]

/-- List-level idempotence of the five-pass sanitizer. -/
theorem sanitizeInputL_v_idem (l : List Char) :
    Validators.sanitizeInputL (Validators.sanitizeInputL l) = Validators.sanitizeInputL l := by
  have h := mem_sanitizeInputL_v l
  conv_lhs => rw [Validators.sanitizeInputL]
  rw [replaceAllChar_of_not_mem '<' "&lt;".data _ (fun hm => (h _ hm).1 rfl),
    replaceAllChar_of_not_mem '>' "&gt;".data _ (fun hm => (h _ hm).2.1 rfl),
    replaceAllChar_of_not_mem (Char.ofNat 34) "&quot;".data _ (fun hm => (h _ hm).2.2.1 rfl),
    replaceAllChar_of_not_mem (Char.ofNat 39) "&#x27;".data _ (fun hm => (h _ hm).2.2.2.1 rfl),
    replaceAllChar_of_not_mem '/' "&#x2F;".data _ (fun hm => (h _ hm).2.2.2.2 rfl)]

/-- Claim C10: both XSS sanitizer variants are idempotent — sanitizing an
already-sanitized string changes nothing, because no replacement string
contains any character the sanitizer escapes. -/
theorem c10_sanitizers_idempotent :
    (∀ s : String, SecurityUtils.sanitizeInput (SecurityUtils.sanitizeInput s) =
      SecurityUtils.sanitizeInput s) ∧
    (∀ s : String, Validators.sanitizeInput (Validators.sanitizeInput s) =
      Validators.sanitizeInput s) := by
  constructor <;> intro s
  · show String.mk _ = String.mk _
    exact congrArg String.mk (sanitizeInputL_su_idem s.data)
  · exact congrArg String.mk (sanitizeInputL_v_idem s.data)

end CSI
